import Mathlib

/-!
Shallow embedding of the Quotient-organization repository (AWS multi-account
orchestration scripts) and proofs about its specification claims.

Source files embedded:
- credential_and_role.py : CredentialAndRole.setup_org_and_get_creds
- flask_endpoint.py      : FlaskEndpoint.setup_org_and_get_creds, get_aws_creds
- create_ou.py           : CreateOu.create_organizational_unit
- create_account.py      : CreateAccount.resolve_ou_id, create_member_account

AWS is modelled as an oracle structure supplying the response of each provider
call; every function also returns the ordered trace of provider calls it
issued, so that claims about which network requests happen are statable.
Python exceptions are modelled by the PyErr type and Except; Python truthiness
and the None value are modelled explicitly by PyVal and Option String.
-/

/-- Python value passed for the role_name argument: None, a string, or a
non-string value such as an int (enough to model the isinstance check). -/
inductive PyVal
  | pnone
  | pstr (s : String)
  | pint (n : Int)
deriving DecidableEq

/-- Python truthiness of a PyVal: None and empty string and zero are falsy. -/
def truthy : PyVal → Bool
  | .pnone => false
  | .pstr s => s ≠ ""
  | .pint n => n ≠ 0

/-- Python isinstance(v, str). -/
def PyVal.isStr : PyVal → Bool
  | .pstr _ => true
  | _ => false

/-- Extract the string of a PyVal (only used after the isinstance check). -/
def PyVal.asStr : PyVal → String
  | .pstr s => s
  | .pnone => "None"
  | .pint n => toString n

/-- Python truthiness of an optional-string argument defaulting to None. -/
def truthyOpt : Option String → Bool
  | none => false
  | some s => s ≠ ""

/-- Python f-string rendering of an optional-string variable: None prints as
the literal text None. -/
def pyFmt : Option String → String
  | none => "None"
  | some s => s

/-- Python exceptions that can flow through these scripts. ClientError keeps
the botocore error code and message. -/
inductive PyErr
  | valueError (msg : String)
  | permissionError (msg : String)
  | clientError (code : String) (msg : String)
  | runtimeError (msg : String)
  | nameError (varName : String)
  | indexError (msg : String)
deriving DecidableEq

/-- Python str(e) of an exception. The botocore ClientError text is modelled
with its standard shape (the error code appears inside the text, which is what
the scripts pattern-match on); the exact operation name is abstracted. -/
def errStr : PyErr → String
  | .valueError m => m
  | .permissionError m => m
  | .clientError code msg =>
      "An error occurred (" ++ code ++ ") when calling an operation: " ++ msg
  | .runtimeError m => m
  | .nameError v =>
      "cannot access local variable " ++ v ++ " where it is not associated with a value"
  | .indexError m => m

/-- Substring occurrence test on character lists. -/
def listContainsSub (pat : List Char) : List Char → Bool
  | [] => pat.isPrefixOf []
  | c :: rest => pat.isPrefixOf (c :: rest) || listContainsSub pat rest

/-- Python substring test, pat in s. -/
def strContains (s pat : String) : Bool :=
  listContainsSub pat.data s.data

/-- Python str.startswith. -/
def pyStartsWith (s pre : String) : Bool :=
  pre.data.isPrefixOf s.data

/-- Whitespace split of a character list (tokens between spaces, possibly
empty). -/
def pySplitTokens : List Char → List (List Char)
  | [] => [[]]
  | c :: rest =>
    if c = ' ' then [] :: pySplitTokens rest
    else
      match pySplitTokens rest with
      | [] => [[c]]
      | t :: ts => (c :: t) :: ts

/-- Python str.split() followed by taking the last token (used by the
Finalizing branch of create_member_account). -/
def pyLastToken (s : String) : Except PyErr String :=
  match ((pySplitTokens s.data).filter (fun t => !t.isEmpty)).getLast? with
  | some t => .ok (String.mk t)
  | none => .error (.indexError "list index out of range")

/-- IAM trust policy document (structured form of the json.dumps payload). -/
structure TrustPolicy where
  effect : String
  principal : String
  action : String
deriving DecidableEq

/-- Trust policy built in credential_and_role.py: a hardcoded example user. -/
def cliTrustPolicy : TrustPolicy :=
  { effect := "Allow",
    principal := "arn:aws:iam::123456789012:user/org-admin-user",
    action := "sts:AssumeRole" }

/-- Trust policy built in flask_endpoint.py: the caller account root. -/
def flaskTrustPolicy (account_id : String) : TrustPolicy :=
  { effect := "Allow",
    principal := "arn:aws:iam::" ++ account_id ++ ":root",
    action := "sts:AssumeRole" }

/-- Temporary credentials returned by sts assume_role; Expiration is carried
as its already-formatted timestamp string. -/
structure StsCreds where
  accessKeyId : String
  secretAccessKey : String
  sessionToken : String
  expiration : String
deriving DecidableEq

/-- Result dictionary of both setup_org_and_get_creds variants. -/
structure CredResult where
  role_name : String
  role_arn : String
  account_id : String
  organization_id : String
  access_key_id : String
  secret_access_key : String
  session_token : String
  region : String
  expires_at : String
deriving DecidableEq

/-- One provider API request, as recorded in the call trace. -/
inductive ApiCall
  | getCallerIdentity
  | describeOrganization
  | createOrganization
  | createRole (roleName : String) (trust : TrustPolicy) (descr : String)
  | attachRolePolicy (roleName : String) (policyArn : String)
  | assumeRole (roleArn : String) (sessionName : String) (durationSeconds : Nat)
  | listRoots
  | paginateListOUs (parentId : String)
  | listOUsForParent (parentId : String)
  | createOU (parentId : String) (ouName : String)
  | createAccount (email : String) (accountName : String) (roleName : String) (billing : String)
  | describeCreateAccountStatus (requestId : String)
  | sleepSeconds (n : Nat)
  | moveAccount (accountId : String) (sourceParentId : String) (destParentId : String)
deriving DecidableEq

/-- Response of describe_organization in the oracle. -/
inductive OrgDescribe
  | found (orgId : String)
  | notInUse
  | clientErr (code : String) (msg : String)
deriving DecidableEq

/-- Oracle for the provider calls made by setup_org_and_get_creds. Errors of
individual calls are ClientError payloads (code, message). -/
structure SetupOracle where
  callerAccount : String
  describeOrg : OrgDescribe
  createOrg : Except (String × String) String
  createRole : Option (String × String)
  assumeRole : Except (String × String) StsCreds

/-- Embedding of setup_org_and_get_creds from credential_and_role.py
(lines 22-103). Note the describe_organization except-ClientError branch:
when the code is not AccessDeniedException the original exception is
swallowed (the source has no re-raise there), org_id stays unbound, and the
function only fails later with an UnboundLocalError (modelled as nameError)
when the result dictionary reads org_id. -/
def CredentialAndRole.setup_org_and_get_creds (role_name : PyVal) (o : SetupOracle) :
    Except PyErr CredResult × List ApiCall :=
  if truthy role_name = false ∨ role_name.isStr = false then
    (.error (.valueError "role_name must be a non-empty string"), [])
  else
    let rn := role_name.asStr
    let account_id := o.callerAccount
    let t0 : List ApiCall := [.getCallerIdentity, .describeOrganization]
    let orgStep : (Except PyErr (Option String)) × List ApiCall :=
      match o.describeOrg with
      | .found i => (.ok (some i), [])
      | .notInUse =>
        match o.createOrg with
        | .ok i => (.ok (some i), [.createOrganization])
        | .error (code, msg) => (.error (.clientError code msg), [.createOrganization])
      | .clientErr code msg =>
        if code = "AccessDeniedException" then
          (.error (.permissionError "Access denied on DescribeOrganization. You must use credentials from the MANAGEMENT ACCOUNT that owns the AWS Organization."), [])
        else
          (.ok none, [])
    match orgStep with
    | (.error e, t1) => (.error e, t0 ++ t1)
    | (.ok org_id, t1) =>
      let role_arn := "arn:aws:iam::" ++ account_id ++ ":role/" ++ rn
      let t2 := t0 ++ t1 ++
        [.createRole rn cliTrustPolicy "Auto-created for mobile app org management"]
      let roleStep : Option PyErr :=
        match o.createRole with
        | some (code, msg) =>
          if code ≠ "EntityAlreadyExists" then some (.clientError code msg) else none
        | none => none
      match roleStep with
      | some e => (.error e, t2)
      | none =>
        let t4 := t2 ++
          [.attachRolePolicy rn "arn:aws:iam::aws:policy/AWSOrganizationsFullAccess",
           .assumeRole role_arn "mobile-app-session" 3600]
        match o.assumeRole with
        | .error (code, msg) => (.error (.clientError code msg), t4)
        | .ok creds =>
          match org_id with
          | none => (.error (.nameError "org_id"), t4)
          | some oid =>
            (.ok { role_name := rn, role_arn := role_arn, account_id := account_id,
                   organization_id := oid, access_key_id := creds.accessKeyId,
                   secret_access_key := creds.secretAccessKey,
                   session_token := creds.sessionToken, region := "us-east-1",
                   expires_at := creds.expiration }, t4)

/-- Embedding of setup_org_and_get_creds from flask_endpoint.py (lines
33-102). Differences from the CLI module: validation message, permission
message, trust policy principal (account root), role description, and the
describe_organization ClientError branch re-raises when the code is not
AccessDeniedException. -/
def FlaskEndpoint.setup_org_and_get_creds (role_name : PyVal) (o : SetupOracle) :
    Except PyErr CredResult × List ApiCall :=
  if truthy role_name = false ∨ role_name.isStr = false then
    (.error (.valueError "role_name is required"), [])
  else
    let rn := role_name.asStr
    let account_id := o.callerAccount
    let t0 : List ApiCall := [.getCallerIdentity, .describeOrganization]
    let orgStep : (Except PyErr String) × List ApiCall :=
      match o.describeOrg with
      | .found i => (.ok i, [])
      | .notInUse =>
        match o.createOrg with
        | .ok i => (.ok i, [.createOrganization])
        | .error (code, msg) => (.error (.clientError code msg), [.createOrganization])
      | .clientErr code msg =>
        if code = "AccessDeniedException" then
          (.error (.permissionError "ROOT user required to create organization"), [])
        else
          (.error (.clientError code msg), [])
    match orgStep with
    | (.error e, t1) => (.error e, t0 ++ t1)
    | (.ok org_id, t1) =>
      let role_arn := "arn:aws:iam::" ++ account_id ++ ":role/" ++ rn
      let t2 := t0 ++ t1 ++
        [.createRole rn (flaskTrustPolicy account_id) "Auto-created for mobile app"]
      let roleStep : Option PyErr :=
        match o.createRole with
        | some (code, msg) =>
          if code ≠ "EntityAlreadyExists" then some (.clientError code msg) else none
        | none => none
      match roleStep with
      | some e => (.error e, t2)
      | none =>
        let t4 := t2 ++
          [.attachRolePolicy rn "arn:aws:iam::aws:policy/AWSOrganizationsFullAccess",
           .assumeRole role_arn "mobile-app-session" 3600]
        match o.assumeRole with
        | .error (code, msg) => (.error (.clientError code msg), t4)
        | .ok creds =>
          (.ok { role_name := rn, role_arn := role_arn, account_id := account_id,
                 organization_id := org_id, access_key_id := creds.accessKeyId,
                 secret_access_key := creds.secretAccessKey,
                 session_token := creds.sessionToken, region := "us-east-1",
                 expires_at := creds.expiration }, t4)

/-- An all-success oracle used for concrete evaluations. -/
def oAll : SetupOracle :=
  { callerAccount := "111122223333",
    describeOrg := .found "o-example111",
    createOrg := .ok "o-example111",
    createRole := none,
    assumeRole := .ok { accessKeyId := "ASIAEXAMPLEKEY",
                        secretAccessKey := "examplesecret",
                        sessionToken := "exampletoken",
                        expiration := "2026-10-12T01:00:00Z" } }

example :
    (CredentialAndRole.setup_org_and_get_creds (.pstr "OrgAdminRole") oAll).1 =
      .ok { role_name := "OrgAdminRole",
            role_arn := "arn:aws:iam::111122223333:role/OrgAdminRole",
            account_id := "111122223333", organization_id := "o-example111",
            access_key_id := "ASIAEXAMPLEKEY", secret_access_key := "examplesecret",
            session_token := "exampletoken", region := "us-east-1",
            expires_at := "2026-10-12T01:00:00Z" } := by rfl

example :
    (FlaskEndpoint.setup_org_and_get_creds (.pstr "OrgAdminRole") oAll).1 =
      (CredentialAndRole.setup_org_and_get_creds (.pstr "OrgAdminRole") oAll).1 := by rfl

/-- HTTP request shape seen by the /get-aws-creds handler: whether the request
carries JSON, the value of role_name inside the JSON body (pnone when absent),
and the raw role_name query parameter. -/
structure HttpRequest where
  is_json : Bool
  jsonRole : PyVal
  queryRole : Option String
deriving DecidableEq

/-- HTTP response: status code and the JSON object body as key-value pairs. -/
structure HttpResponse where
  status : Nat
  body : List (String × String)
deriving DecidableEq

/-- The role_name value the handler actually consults: the JSON body when
request.is_json, otherwise the query string. -/
def requestRole (req : HttpRequest) : PyVal :=
  if req.is_json then req.jsonRole
  else
    match req.queryRole with
    | some s => .pstr s
    | none => .pnone

/-- JSON body produced by jsonify(creds). -/
def credJson (c : CredResult) : List (String × String) :=
  [("role_name", c.role_name), ("role_arn", c.role_arn),
   ("account_id", c.account_id), ("organization_id", c.organization_id),
   ("access_key_id", c.access_key_id), ("secret_access_key", c.secret_access_key),
   ("session_token", c.session_token), ("region", c.region),
   ("expires_at", c.expires_at)]

/-- Embedding of the get_aws_creds route handler from flask_endpoint.py
(lines 107-126): 400 when the consulted role_name is falsy, 403 for
PermissionError, 500 with a generic body for any other exception, 200 with
the credential JSON on success. -/
def FlaskEndpoint.get_aws_creds (req : HttpRequest) (o : SetupOracle) : HttpResponse :=
  if truthy (requestRole req) = false then
    { status := 400, body := [("error", "role_name is required")] }
  else
    match (FlaskEndpoint.setup_org_and_get_creds (requestRole req) o).1 with
    | .ok creds => { status := 200, body := credJson creds }
    | .error (.permissionError m) => { status := 403, body := [("error", m)] }
    | .error _ => { status := 500, body := [("error", "Internal server error")] }

/-- One organizational unit entry as returned by the listing APIs. -/
structure OUEntry where
  id : String
  name : String
deriving DecidableEq

/-- Role name selection of create_organizational_unit (create_ou.py lines
27-33), with Python or-truthiness and f-string None rendering. -/
def chooseOuRole (parent_ou_id parent_ou_name role_name : Option String) : String :=
  if truthyOpt parent_ou_id || truthyOpt parent_ou_name then
    (if truthyOpt role_name then role_name.getD "" else pyFmt parent_ou_name ++ "AdminRole")
  else
    (if truthyOpt role_name then role_name.getD "" else "OrgAdminRole")

/-- Oracle for the provider calls made by create_organizational_unit. -/
structure OuOracle where
  setup : SetupOracle
  roots : List String
  listOUs : String → List OUEntry
  createOU : Except (String × String) String

/-- Parent resolution of create_organizational_unit (create_ou.py lines
47-63): explicit parent id wins, else look up the parent name among OUs
directly under the root, else the root itself. -/
def CreateOu.resolveParent (parent_ou_id parent_ou_name : Option String) (o : OuOracle) :
    Except PyErr String × List ApiCall :=
  if truthyOpt parent_ou_id then
    (.ok (parent_ou_id.getD ""), [])
  else if truthyOpt parent_ou_name then
    match o.roots with
    | [] => (.error (.indexError "list index out of range"), [.listRoots])
    | r :: _ =>
      let ous := o.listOUs r
      match ous.find? (fun x => x.name = parent_ou_name.getD "") with
      | some p => (.ok p.id, [.listRoots, .listOUsForParent r])
      | none =>
        (.error (.valueError ("Parent OU named \x27" ++ pyFmt parent_ou_name ++ "\x27 not found under root")),
         [.listRoots, .listOUsForParent r])
  else
    match o.roots with
    | [] => (.error (.indexError "list index out of range"), [.listRoots])
    | r :: _ => (.ok r, [.listRoots])

/-- Result dictionary of create_organizational_unit: the credential fields
plus the OU fields (the Python code copies the creds dict and updates it). -/
structure OuResult where
  creds : CredResult
  ou_name : String
  ou_id : Option String
  parent_ou_id : String
deriving DecidableEq

/-- Embedding of create_organizational_unit from create_ou.py (lines 6-90):
validate, choose the role, provision credentials, resolve the parent, create
the OU, and on a duplicate-name ClientError reuse the existing OU with that
name under the parent (ou_id becomes None when no such OU is listed). -/
def CreateOu.create_organizational_unit (ou_name : String)
    (parent_ou_id parent_ou_name role_name : Option String) (o : OuOracle) :
    Except PyErr OuResult × List ApiCall :=
  if ou_name = "" then
    (.error (.valueError "ou_name is required"), [])
  else
    let rn := chooseOuRole parent_ou_id parent_ou_name role_name
    match CredentialAndRole.setup_org_and_get_creds (.pstr rn) o.setup with
    | (.error e, t0) => (.error e, t0)
    | (.ok creds, t0) =>
      match CreateOu.resolveParent parent_ou_id parent_ou_name o with
      | (.error e, t1) => (.error e, t0 ++ t1)
      | (.ok parent_id, t1) =>
        let t2 := t0 ++ t1 ++ [.createOU parent_id ou_name]
        match o.createOU with
        | .ok oid =>
          (.ok { creds := creds, ou_name := ou_name, ou_id := some oid,
                 parent_ou_id := parent_id }, t2)
        | .error (code, msg) =>
          if strContains (errStr (.clientError code msg)) "DuplicateOrganizationalUnitNameException" then
            let ous := o.listOUs parent_id
            let existing := ous.find? (fun x => x.name = ou_name)
            (.ok { creds := creds, ou_name := ou_name, ou_id := existing.map OUEntry.id,
                   parent_ou_id := parent_id }, t2 ++ [.listOUsForParent parent_id])
          else
            (.error (.clientError code msg), t2)

/-- One create-account status response: state plus the optional fields read
from it. -/
structure AcctStatus where
  state : String
  accountId : Option String
  failureReason : Option String
deriving DecidableEq

/-- Oracle for the provider calls made by create_member_account. The roots
field serves both list_roots calls; statuses gives the n-th polled status. -/
structure AcctOracle where
  setup : SetupOracle
  roots : Except (String × String) (List String)
  ouPages : List (List OUEntry)
  createAccount : Except (String × String) String
  statuses : Nat → AcctStatus
  moveAccount : Option (String × String)

/-- Page scan of the list_organizational_units_for_parent paginator inside
resolve_ou_id: pages are fetched lazily and the scan stops at the first OU
whose Name matches. -/
def CreateAccount.scanOuPages (root_id ou_name : String) :
    List (List OUEntry) → Except PyErr String × List ApiCall
  | [] =>
    (.error (.valueError ("OU named \x27" ++ ou_name ++ "\x27 not found under the root.")), [])
  | page :: rest =>
    match page.find? (fun x => x.name = ou_name) with
    | some e => (.ok e.id, [.listOUsForParent root_id])
    | none =>
      match CreateAccount.scanOuPages root_id ou_name rest with
      | (res, t) => (res, .listOUsForParent root_id :: t)

/-- Embedding of resolve_ou_id from create_account.py (lines 27-48): return
the given id directly, else search by name among the OUs directly under the
root using the paginator. -/
def CreateAccount.resolve_ou_id (o : AcctOracle) (ou_name ou_id : Option String) :
    Except PyErr String × List ApiCall :=
  if truthyOpt ou_id then
    (.ok (ou_id.getD ""), [])
  else if truthyOpt ou_name = false then
    (.error (.valueError "Either ou_name or ou_id must be provided"), [])
  else
    match o.roots with
    | .error (code, msg) => (.error (.clientError code msg), [.listRoots])
    | .ok [] => (.error (.indexError "list index out of range"), [.listRoots])
    | .ok (r :: _) =>
      match CreateAccount.scanOuPages r (ou_name.getD "") o.ouPages with
      | (res, t) => (res, .listRoots :: .paginateListOUs r :: t)

/-- The ID-shape heuristic of create_member_account step 2: the ou argument
is treated as a literal OU id when it starts with ou- and is longer than 10
characters. -/
def CreateAccount.ouIdHeuristic (ou : String) : Bool :=
  pyStartsWith ou "ou-" && decide (ou.length > 10)

/-- OU resolution step of create_member_account (create_account.py lines
80-89) before the exception wrapper: literal id short-circuit or name lookup
via resolve_ou_id. -/
def CreateAccount.resolveTargetOu (ou : String) (o : AcctOracle) :
    Except PyErr String × List ApiCall :=
  if CreateAccount.ouIdHeuristic ou then (.ok ou, [])
  else CreateAccount.resolve_ou_id o (some ou) none

/-- OU resolution step with the surrounding try-except of create_account.py
lines 80-91: any exception is re-raised as a ValueError whose message embeds
the original exception text. -/
def CreateAccount.resolveOuStep (ou : String) (o : AcctOracle) :
    Except PyErr String × List ApiCall :=
  match CreateAccount.resolveTargetOu ou o with
  | (.error e, t) =>
    (.error (.valueError ("Cannot resolve OU \x27" ++ ou ++ "\x27: " ++ errStr e)), t)
  | (.ok i, t) => (.ok i, t)

/-- The polling loop of create_member_account (create_account.py lines
115-130), indexed by remaining fuel: a none result means the loop is still
running after that many iterations (the source loop has no bound, so an
input with no terminal state runs forever). Each iteration issues one
describe_create_account_status call; non-terminal states sleep 6 seconds and
poll again on the next status. -/
def CreateAccount.pollCreateStatus (create_id : String) (statuses : Nat → AcctStatus) :
    Nat → Option (Except PyErr String) × List ApiCall
  | 0 => (none, [])
  | fuel + 1 =>
    let s := statuses 0
    if s.state = "SUCCEEDED" then
      match s.accountId with
      | some a => (some (.ok a), [.describeCreateAccountStatus create_id])
      | none =>
        (some (.error (.nameError "AccountId")), [.describeCreateAccountStatus create_id])
    else if s.state = "FAILED" then
      (some (.error (.runtimeError ("Account creation failed: " ++ s.failureReason.getD "Unknown"))),
       [.describeCreateAccountStatus create_id])
    else
      match CreateAccount.pollCreateStatus create_id (fun n => statuses (n + 1)) fuel with
      | (res, t) =>
        (res, .describeCreateAccountStatus create_id :: .sleepSeconds 6 :: t)

/-- Result dictionary of create_member_account: credential fields plus the
account fields. -/
structure AcctResult where
  creds : CredResult
  account_name : String
  account_id : String
  account_email : String
  ou_id : String
  create_request_id : String
deriving DecidableEq

/-- Step 3 of create_member_account (create_account.py lines 94-110): start
the account creation; on a ClientError whose text mentions Finalizing,
recover the in-progress creation-request id as the last token of the error
text, otherwise re-raise. -/
def CreateAccount.startCreateStep (o : AcctOracle) : Except PyErr String :=
  match o.createAccount with
  | .ok cid => .ok cid
  | .error (code, msg) =>
    if strContains (errStr (.clientError code msg)) "Finalizing" then
      pyLastToken (errStr (.clientError code msg))
    else .error (.clientError code msg)

/-- Steps 4 to 6 of create_member_account (create_account.py lines 112-151):
poll the creation status to completion, look up the root, move the account
into the target OU, and build the merged result. -/
def CreateAccount.pollMoveStep (account_name account_email target_ou_id create_id : String)
    (creds : CredResult) (fuel : Nat) (o : AcctOracle) :
    Option (Except PyErr AcctResult) × List ApiCall :=
  match CreateAccount.pollCreateStatus create_id o.statuses fuel with
  | (none, t3) => (none, t3)
  | (some (.error e), t3) => (some (.error e), t3)
  | (some (.ok account_id), t3) =>
    match o.roots with
    | .error (code, msg) => (some (.error (.clientError code msg)), t3 ++ [.listRoots])
    | .ok [] =>
      (some (.error (.indexError "list index out of range")), t3 ++ [.listRoots])
    | .ok (root_id :: _) =>
      let t4 := t3 ++ [.listRoots, .moveAccount account_id root_id target_ou_id]
      match o.moveAccount with
      | some (code, msg) => (some (.error (.clientError code msg)), t4)
      | none =>
        (some (.ok { creds := creds, account_name := account_name,
                     account_id := account_id, account_email := account_email,
                     ou_id := target_ou_id, create_request_id := create_id }), t4)

/-- Steps 3 to 6 of create_member_account (create_account.py lines 93-151):
start the account creation, then poll, move and build the result. -/
def CreateAccount.creationPhase (account_name account_email role_name target_ou_id : String)
    (creds : CredResult) (fuel : Nat) (o : AcctOracle) :
    Option (Except PyErr AcctResult) × List ApiCall :=
  match CreateAccount.startCreateStep o with
  | .error e => (some (.error e), [.createAccount account_email account_name role_name "ALLOW"])
  | .ok create_id =>
    match CreateAccount.pollMoveStep account_name account_email target_ou_id create_id creds fuel o with
    | (res, t) =>
      (res, .createAccount account_email account_name role_name "ALLOW" :: t)

/-- Embedding of create_member_account from create_account.py (lines 54-151):
validate the three required fields, provision credentials for the role,
resolve the target OU, then run the creation phase. -/
def CreateAccount.create_member_account (account_name account_email ou role_name : String)
    (fuel : Nat) (o : AcctOracle) :
    Option (Except PyErr AcctResult) × List ApiCall :=
  if account_name = "" ∨ account_email = "" ∨ ou = "" then
    (some (.error (.valueError "account_name, account_email, and ou are required")), [])
  else
    match CredentialAndRole.setup_org_and_get_creds (.pstr role_name) o.setup with
    | (.error e, t0) => (some (.error e), t0)
    | (.ok creds, t0) =>
      match CreateAccount.resolveOuStep ou o with
      | (.error e, t1) => (some (.error e), t0 ++ t1)
      | (.ok target_ou_id, t1) =>
        match CreateAccount.creationPhase account_name account_email role_name target_ou_id creds fuel o with
        | (res, t2) => (res, t0 ++ t1 ++ t2)

/-!
Concrete inputs reused by several claim evaluations.
-/

/-- Credential result produced by a successful run against oAll with role
OrgAdminRole. -/
def cred0 : CredResult :=
  { role_name := "OrgAdminRole",
    role_arn := "arn:aws:iam::111122223333:role/OrgAdminRole",
    account_id := "111122223333", organization_id := "o-example111",
    access_key_id := "ASIAEXAMPLEKEY", secret_access_key := "examplesecret",
    session_token := "exampletoken", region := "us-east-1",
    expires_at := "2026-10-12T01:00:00Z" }

/-- Provider-call trace of a successful run against oAll with role
OrgAdminRole. -/
def setupTrace0 : List ApiCall :=
  [.getCallerIdentity, .describeOrganization,
   .createRole "OrgAdminRole" cliTrustPolicy "Auto-created for mobile app org management",
   .attachRolePolicy "OrgAdminRole" "arn:aws:iam::aws:policy/AWSOrganizationsFullAccess",
   .assumeRole "arn:aws:iam::111122223333:role/OrgAdminRole" "mobile-app-session" 3600]

example : CredentialAndRole.setup_org_and_get_creds (.pstr "OrgAdminRole") oAll =
    (.ok cred0, setupTrace0) := by rfl

/-- Oracle whose describe_organization call fails with a throttling
ClientError, everything else succeeding. -/
def oThrottled : SetupOracle :=
  { oAll with describeOrg := .clientErr "ThrottlingException" "Rate exceeded" }

/-- Claim C2: when describe_organization raises a ClientError whose code is
neither the organizations-not-in-use condition nor AccessDeniedException, the
CLI module does NOT propagate it: the except branch lacks a re-raise, so the
function continues (still creating and assuming the role) and then fails with
an unbound-variable error on org_id while building the result. This theorem
evaluates the code at such an input and shows both the actual outcome and
that the outcome is not the original provider error. -/
theorem claim_C2_code_behavior :
    CredentialAndRole.setup_org_and_get_creds (.pstr "OrgAdminRole") oThrottled =
      (.error (.nameError "org_id"),
       [.getCallerIdentity, .describeOrganization,
        .createRole "OrgAdminRole" cliTrustPolicy "Auto-created for mobile app org management",
        .attachRolePolicy "OrgAdminRole" "arn:aws:iam::aws:policy/AWSOrganizationsFullAccess",
        .assumeRole "arn:aws:iam::111122223333:role/OrgAdminRole" "mobile-app-session" 3600]) ∧
    (CredentialAndRole.setup_org_and_get_creds (.pstr "OrgAdminRole") oThrottled).1 ≠
      .error (.clientError "ThrottlingException" "Rate exceeded") := by
  refine ⟨rfl, ?_⟩
  intro h
  rw [show (CredentialAndRole.setup_org_and_get_creds (.pstr "OrgAdminRole") oThrottled).1 =
        .error (.nameError "org_id") from rfl] at h
  simp at h

/-- Claim C6 counterexample: with a parent given only by id (no parent name
argument), create_organizational_unit defaults the role to the literal string
NoneAdminRole, which is the Python rendering of None followed by AdminRole,
not the parent OU name followed by AdminRole (for instance not DevAdminRole
for a parent actually named Dev). -/
theorem claim_C6_counterexample :
    chooseOuRole (some "ou-abcd-12345678") none none = "NoneAdminRole" ∧
    ¬ (∀ actualParentName : String,
        chooseOuRole (some "ou-abcd-12345678") none none = actualParentName ++ "AdminRole") := by
  refine ⟨rfl, fun h => ?_⟩
  have hd := h "Dev"
  rw [show chooseOuRole (some "ou-abcd-12345678") none none = "NoneAdminRole" from rfl] at hd
  exact absurd hd (by decide)

/-- Claim C6 amended: an explicit truthy role_name always wins; with a truthy
parent name the default is that name followed by AdminRole; with a parent
given only by id the default is the literal NoneAdminRole; with no parent the
default is OrgAdminRole. -/
theorem claim_C6 (pid pname r : Option String) :
    (truthyOpt r = true → chooseOuRole pid pname r = r.getD "") ∧
    (truthyOpt r = false → truthyOpt pname = true →
      chooseOuRole pid pname r = pyFmt pname ++ "AdminRole") ∧
    (truthyOpt r = false → truthyOpt pid = true → pname = none →
      chooseOuRole pid pname r = "NoneAdminRole") ∧
    (truthyOpt r = false → truthyOpt pid = false → truthyOpt pname = false →
      chooseOuRole pid pname r = "OrgAdminRole") := by
  refine ⟨?_, ?_, ?_, ?_⟩ <;> intros <;> unfold chooseOuRole <;> simp_all [pyFmt]

/-- Claim C6 witness: concrete instances of the amended role selection. -/
theorem claim_C6_witness :
    chooseOuRole none (some "Development") none = "DevelopmentAdminRole" ∧
    chooseOuRole (some "ou-abcd-12345678") (some "Development") (some "CustomRole") = "CustomRole" :=
  ⟨((claim_C6 none (some "Development") none).2.1 rfl rfl).trans rfl,
   (claim_C6 (some "ou-abcd-12345678") (some "Development") (some "CustomRole")).1 rfl⟩

/-- Case analysis of the /get-aws-creds handler: exactly one of the four
outcomes happens, each tied to the value the handler consulted and to the
result of the inner credential routine. -/
lemma get_aws_creds_cases (req : HttpRequest) (o : SetupOracle) :
    (truthy (requestRole req) = false ∧
      FlaskEndpoint.get_aws_creds req o =
        { status := 400, body := [("error", "role_name is required")] }) ∨
    (truthy (requestRole req) = true ∧
      ((∃ c, (FlaskEndpoint.setup_org_and_get_creds (requestRole req) o).1 = .ok c ∧
          FlaskEndpoint.get_aws_creds req o = { status := 200, body := credJson c }) ∨
       (∃ m, (FlaskEndpoint.setup_org_and_get_creds (requestRole req) o).1 =
              .error (.permissionError m) ∧
          FlaskEndpoint.get_aws_creds req o = { status := 403, body := [("error", m)] }) ∨
       (∃ e, (FlaskEndpoint.setup_org_and_get_creds (requestRole req) o).1 = .error e ∧
          (∀ m, e ≠ .permissionError m) ∧
          FlaskEndpoint.get_aws_creds req o =
            { status := 500, body := [("error", "Internal server error")] }))) := by
  cases ht : truthy (requestRole req) with
  | false =>
    left
    refine ⟨rfl, ?_⟩
    unfold FlaskEndpoint.get_aws_creds
    rw [if_pos ht]
  | true =>
    right
    refine ⟨rfl, ?_⟩
    have hneg : ¬ truthy (requestRole req) = false := by rw [ht]; simp
    rcases hres : (FlaskEndpoint.setup_org_and_get_creds (requestRole req) o).1 with e | c
    · rcases e with m | m | ⟨code, msg⟩ | m | v | m
      case permissionError =>
        refine Or.inr (Or.inl ⟨m, rfl, ?_⟩)
        unfold FlaskEndpoint.get_aws_creds
        rw [if_neg hneg, hres]
      case valueError =>
        refine Or.inr (Or.inr ⟨.valueError m, rfl, fun m2 h => PyErr.noConfusion h, ?_⟩)
        unfold FlaskEndpoint.get_aws_creds
        rw [if_neg hneg, hres]
      case clientError =>
        refine Or.inr (Or.inr ⟨.clientError code msg, rfl, fun m2 h => PyErr.noConfusion h, ?_⟩)
        unfold FlaskEndpoint.get_aws_creds
        rw [if_neg hneg, hres]
      case runtimeError =>
        refine Or.inr (Or.inr ⟨.runtimeError m, rfl, fun m2 h => PyErr.noConfusion h, ?_⟩)
        unfold FlaskEndpoint.get_aws_creds
        rw [if_neg hneg, hres]
      case nameError =>
        refine Or.inr (Or.inr ⟨.nameError v, rfl, fun m2 h => PyErr.noConfusion h, ?_⟩)
        unfold FlaskEndpoint.get_aws_creds
        rw [if_neg hneg, hres]
      case indexError =>
        refine Or.inr (Or.inr ⟨.indexError m, rfl, fun m2 h => PyErr.noConfusion h, ?_⟩)
        unfold FlaskEndpoint.get_aws_creds
        rw [if_neg hneg, hres]
    · refine Or.inl ⟨c, rfl, ?_⟩
      unfold FlaskEndpoint.get_aws_creds
      rw [if_neg hneg, hres]

/-- Request whose JSON body lacks role_name while the query string carries
one: the handler consults only the JSON body for a JSON request. -/
def reqJsonNoRole : HttpRequest :=
  { is_json := true, jsonRole := .pnone, queryRole := some "OrgAdminRole" }

/-- Request carrying role_name in the query string of a non-JSON request. -/
def reqQueryRole : HttpRequest :=
  { is_json := false, jsonRole := .pnone, queryRole := some "OrgAdminRole" }

/-- Claim C1 counterexample: a JSON request whose body lacks role_name gets a
400 even though role_name is present in the query string, because the handler
never falls back from the JSON body to the query string; so 400 is not
returned exactly when role_name is absent from both sources. -/
theorem claim_C1_counterexample :
    (FlaskEndpoint.get_aws_creds reqJsonNoRole oAll).status = 400 ∧
    reqJsonNoRole.queryRole = some "OrgAdminRole" :=
  ⟨rfl, rfl⟩

/-- Claim C1 amended: the handler returns 400 exactly when the role_name
value from the consulted source (the JSON body when the request is JSON,
otherwise the query string) is missing or falsy; 403 exactly when the inner
credential routine raises a permission error; 200 with the credential JSON
(whose keys include access_key_id, secret_access_key, session_token and
expires_at) when it succeeds; and 500 with a generic body when it raises any
other exception. -/
theorem claim_C1 (req : HttpRequest) (o : SetupOracle) :
    ((FlaskEndpoint.get_aws_creds req o).status = 400 ↔ truthy (requestRole req) = false) ∧
    ((FlaskEndpoint.get_aws_creds req o).status = 403 ↔
      (truthy (requestRole req) = true ∧
        ∃ m, (FlaskEndpoint.setup_org_and_get_creds (requestRole req) o).1 =
          .error (.permissionError m))) ∧
    (∀ c, truthy (requestRole req) = true →
      (FlaskEndpoint.setup_org_and_get_creds (requestRole req) o).1 = .ok c →
      FlaskEndpoint.get_aws_creds req o = { status := 200, body := credJson c }) ∧
    (∀ e, truthy (requestRole req) = true →
      (FlaskEndpoint.setup_org_and_get_creds (requestRole req) o).1 = .error e →
      (∀ m, e ≠ .permissionError m) →
      FlaskEndpoint.get_aws_creds req o =
        { status := 500, body := [("error", "Internal server error")] }) ∧
    (∀ c : CredResult,
      "access_key_id" ∈ (credJson c).map Prod.fst ∧
      "secret_access_key" ∈ (credJson c).map Prod.fst ∧
      "session_token" ∈ (credJson c).map Prod.fst ∧
      "expires_at" ∈ (credJson c).map Prod.fst) := by
  have hkeys : ∀ c : CredResult,
      "access_key_id" ∈ (credJson c).map Prod.fst ∧
      "secret_access_key" ∈ (credJson c).map Prod.fst ∧
      "session_token" ∈ (credJson c).map Prod.fst ∧
      "expires_at" ∈ (credJson c).map Prod.fst := by
    intro c
    refine ⟨?_, ?_, ?_, ?_⟩ <;> simp [credJson]
  rcases get_aws_creds_cases req o with ⟨ht, hresp⟩ | ⟨ht, hcase⟩
  · refine ⟨?_, ?_, ?_, ?_, hkeys⟩
    · rw [hresp]; simp [ht]
    · rw [hresp]; simp [ht]
    · intro c h1 _; rw [ht] at h1; exact absurd h1 (by simp)
    · intro e h1 _ _; rw [ht] at h1; exact absurd h1 (by simp)
  · rcases hcase with ⟨c, hok, hresp⟩ | ⟨m, herr, hresp⟩ | ⟨e, herr, hnp, hresp⟩
    · refine ⟨?_, ?_, ?_, ?_, hkeys⟩
      · rw [hresp]; simp [ht]
      · rw [hresp]; simp [ht, hok]
      · intro c2 _ h2; rw [hok] at h2; injection h2 with h3; subst h3; exact hresp
      · intro e2 _ h2 _; rw [hok] at h2; exact absurd h2 (by simp)
    · refine ⟨?_, ?_, ?_, ?_, hkeys⟩
      · rw [hresp]; simp [ht]
      · rw [hresp]; simp [ht, herr]
      · intro c2 _ h2; rw [herr] at h2; exact absurd h2 (by simp)
      · intro e2 _ h2 hnp2
        rw [herr] at h2
        injection h2 with h3
        exact absurd h3.symm (hnp2 m)
    · refine ⟨?_, ?_, ?_, ?_, hkeys⟩
      · rw [hresp]; simp [ht]
      · rw [hresp]
        constructor
        · intro h; exact absurd h (by decide)
        · rintro ⟨-, m, hm⟩
          rw [herr] at hm
          injection hm with h3
          exact absurd h3 (hnp m)
      · intro c2 _ h2; rw [herr] at h2; exact absurd h2 (by simp)
      · intro e2 _ h2 _
        rw [herr] at h2
        injection h2

/-- Claim C1 witness: a non-JSON request with role_name in the query string
against the all-success oracle yields 200 with the credential JSON. -/
theorem claim_C1_witness :
    FlaskEndpoint.get_aws_creds reqQueryRole oAll = { status := 200, body := credJson cred0 } :=
  (claim_C1 reqQueryRole oAll).2.2.1 cred0 (by decide) (by rfl)

/-- Claim C9: the handler is total over the embedded request and oracle
space: it always answers with status 200, 400, 403 or 500; every non-200
body is a JSON object with the single key error; and the 500 body carries
the fixed generic message. -/
theorem claim_C9 (req : HttpRequest) (o : SetupOracle) :
    ((FlaskEndpoint.get_aws_creds req o).status = 200 ∨
     (FlaskEndpoint.get_aws_creds req o).status = 400 ∨
     (FlaskEndpoint.get_aws_creds req o).status = 403 ∨
     (FlaskEndpoint.get_aws_creds req o).status = 500) ∧
    ((FlaskEndpoint.get_aws_creds req o).status ≠ 200 →
      ∃ m, (FlaskEndpoint.get_aws_creds req o).body = [("error", m)]) ∧
    ((FlaskEndpoint.get_aws_creds req o).status = 500 →
      (FlaskEndpoint.get_aws_creds req o).body = [("error", "Internal server error")]) := by
  rcases get_aws_creds_cases req o with ⟨ht, hresp⟩ | ⟨ht, hcase⟩
  · rw [hresp]
    exact ⟨Or.inr (Or.inl rfl), fun _ => ⟨"role_name is required", rfl⟩,
           fun h => absurd h (by decide)⟩
  · rcases hcase with ⟨c, hok, hresp⟩ | ⟨m, herr, hresp⟩ | ⟨e, herr, hnp, hresp⟩ <;> rw [hresp]
    · exact ⟨Or.inl rfl, fun h => absurd rfl h, fun h => by simp at h⟩
    · exact ⟨Or.inr (Or.inr (Or.inl rfl)), fun _ => ⟨m, rfl⟩, fun h => by simp at h⟩
    · exact ⟨Or.inr (Or.inr (Or.inr rfl)), fun _ => ⟨"Internal server error", rfl⟩,
             fun _ => rfl⟩

/-- Claim C9 witness: at a concrete non-200 input the body is a single-key
error object. -/
theorem claim_C9_witness :
    ∃ m, (FlaskEndpoint.get_aws_creds reqJsonNoRole oAll).body = [("error", m)] :=
  (claim_C9 reqJsonNoRole oAll).2.1 (by decide)

/-- Claim C8: create_member_account with an empty account_name, account_email
or ou raises the validation ValueError with an empty provider-call trace, and
setup_org_and_get_creds with a falsy or non-string role_name raises its
validation ValueError with an empty trace; in both cases no provider API is
invoked. -/
theorem claim_C8 :
    (∀ (n e ou rn : String) (fuel : Nat) (o : AcctOracle),
      (n = "" ∨ e = "" ∨ ou = "") →
      CreateAccount.create_member_account n e ou rn fuel o =
        (some (.error (.valueError "account_name, account_email, and ou are required")), [])) ∧
    (∀ (rv : PyVal) (o : SetupOracle),
      (truthy rv = false ∨ rv.isStr = false) →
      CredentialAndRole.setup_org_and_get_creds rv o =
        (.error (.valueError "role_name must be a non-empty string"), [])) := by
  constructor
  · intro n e ou rn fuel o h
    unfold CreateAccount.create_member_account
    rw [if_pos h]
  · intro rv o h
    unfold CredentialAndRole.setup_org_and_get_creds
    rw [if_pos h]

/-- Successful account-creation oracle used by concrete evaluations. -/
def oAcct : AcctOracle :=
  { setup := oAll,
    roots := .ok ["r-root1"],
    ouPages := [[⟨"ou-abcd-11111111", "Development"⟩]],
    createAccount := .ok "car-examplereq1",
    statuses := fun _ =>
      { state := "SUCCEEDED", accountId := some "444455556666", failureReason := none },
    moveAccount := none }

/-- Claim C8 witness: an empty account_name and a non-string role_name both
fail validation with empty traces. -/
theorem claim_C8_witness :
    CreateAccount.create_member_account "" "new@example.com" "Development" "OrgAdminRole" 3 oAcct =
      (some (.error (.valueError "account_name, account_email, and ou are required")), []) ∧
    CredentialAndRole.setup_org_and_get_creds (.pint 5) oAll =
      (.error (.valueError "role_name must be a non-empty string"), []) :=
  ⟨claim_C8.1 "" "new@example.com" "Development" "OrgAdminRole" 3 oAcct (Or.inl rfl),
   claim_C8.2 (.pint 5) oAll (Or.inr rfl)⟩

/-- Claim C3: when the create_organizational_unit creation attempt fails with
a duplicate-name ClientError and an OU with the requested name is listed
under the resolved parent, the function returns the success-shaped result
carrying that existing OU id (the first listed match) instead of raising. -/
theorem claim_C3 (ou_name : String) (pid pname rnArg : Option String) (o : OuOracle)
    (creds : CredResult) (t0 : List ApiCall) (P : String) (t1 : List ApiCall)
    (code msg : String) (entry : OUEntry)
    (hname : ou_name ≠ "")
    (hsetup : CredentialAndRole.setup_org_and_get_creds
        (.pstr (chooseOuRole pid pname rnArg)) o.setup = (.ok creds, t0))
    (hparent : CreateOu.resolveParent pid pname o = (.ok P, t1))
    (hcreate : o.createOU = .error (code, msg))
    (hdup : strContains (errStr (.clientError code msg))
        "DuplicateOrganizationalUnitNameException" = true)
    (hfind : (o.listOUs P).find? (fun x => x.name = ou_name) = some entry) :
    (CreateOu.create_organizational_unit ou_name pid pname rnArg o).1 =
      .ok { creds := creds, ou_name := ou_name, ou_id := some entry.id,
            parent_ou_id := P } := by
  unfold CreateOu.create_organizational_unit
  rw [if_neg hname]
  simp only [hsetup, hparent, hcreate, hdup, hfind, if_true, Option.map_some]
  rfl

/-- Oracle where creating the OU reports a duplicate name and the listing
under the parent contains the synonymous OU. -/
def oOuDup : OuOracle :=
  { setup := oAll,
    roots := ["r-root1"],
    listOUs := fun _ => [⟨"ou-abcd-22222222", "Development"⟩],
    createOU := .error ("DuplicateOrganizationalUnitNameException", "already exists") }

/-- Claim C3 witness: a concrete duplicate-name creation returns the existing
OU id. -/
theorem claim_C3_witness :
    (CreateOu.create_organizational_unit "Development" none none none oOuDup).1 =
      .ok { creds := cred0, ou_name := "Development", ou_id := some "ou-abcd-22222222",
            parent_ou_id := "r-root1" } :=
  claim_C3 "Development" none none none oOuDup cred0 setupTrace0 "r-root1" [.listRoots]
    "DuplicateOrganizationalUnitNameException" "already exists"
    ⟨"ou-abcd-22222222", "Development"⟩ (by decide) rfl rfl rfl (by rfl) rfl

/-- Claim C10: once validation and credential provisioning pass, any
exception raised by the OU-resolution step of create_member_account, of any
type, surfaces to the caller as a ValueError whose message is the fixed
Cannot-resolve-OU text embedding the original exception text. -/
theorem claim_C10 (n e ou rn : String) (fuel : Nat) (o : AcctOracle)
    (creds : CredResult) (t0 : List ApiCall) (err : PyErr) (t1 : List ApiCall)
    (hn : n ≠ "") (he : e ≠ "") (hou : ou ≠ "")
    (hsetup : CredentialAndRole.setup_org_and_get_creds (.pstr rn) o.setup = (.ok creds, t0))
    (hres : CreateAccount.resolveTargetOu ou o = (.error err, t1)) :
    (CreateAccount.create_member_account n e ou rn fuel o).1 =
      some (.error (.valueError ("Cannot resolve OU \x27" ++ ou ++ "\x27: " ++ errStr err))) := by
  unfold CreateAccount.create_member_account
  rw [if_neg (by simp [hn, he, hou])]
  simp only [hsetup]
  unfold CreateAccount.resolveOuStep
  simp only [hres]

/-- Oracle whose list_roots call is denied, so name resolution raises. -/
def oAcctBadRoots : AcctOracle :=
  { oAcct with roots := .error ("AccessDeniedException", "not allowed") }

/-- Claim C10 witness: a denied list_roots call during name resolution
surfaces as the wrapped ValueError. -/
theorem claim_C10_witness :
    (CreateAccount.create_member_account "NewAcct" "new@example.com" "Development"
        "OrgAdminRole" 3 oAcctBadRoots).1 =
      some (.error (.valueError ("Cannot resolve OU \x27Development\x27: " ++
        errStr (.clientError "AccessDeniedException" "not allowed")))) :=
  claim_C10 "NewAcct" "new@example.com" "Development" "OrgAdminRole" 3 oAcctBadRoots
    cred0 setupTrace0 (.clientError "AccessDeniedException" "not allowed") [.listRoots]
    (by decide) (by decide) (by decide) rfl rfl

/-- Claim C7 counterexample: on the same all-success oracle and role, the two
setup_org_and_get_creds copies do not issue the same provider requests: their
create_role requests differ (trust policy principal and description). -/
theorem claim_C7_counterexample :
    (CredentialAndRole.setup_org_and_get_creds (.pstr "OrgAdminRole") oAll).2 ≠
      (FlaskEndpoint.setup_org_and_get_creds (.pstr "OrgAdminRole") oAll).2 := by
  decide

/-- The two trust policy principals differ for every account id: the CLI
principal ends in the user name while the endpoint principal ends in root. -/
lemma trust_principal_ne (a : String) :
    cliTrustPolicy.principal ≠ (flaskTrustPolicy a).principal := by
  intro h
  have h2 := congrArg (fun s : String => s.data.reverse.head?) h
  simp only [cliTrustPolicy, flaskTrustPolicy] at h2
  rw [show ("arn:aws:iam::" ++ a ++ ":root").data =
        ("arn:aws:iam::" ++ a).data ++ (":root").data from rfl,
      List.reverse_append] at h2
  rw [show (((":root").data.reverse) ++ ("arn:aws:iam::" ++ a).data.reverse).head? =
        some (Char.ofNat 116) from rfl] at h2
  exact absurd h2 (by decide)

/-- Claim C7 amended: on the success path with identical provider responses
the two copies return equal result dictionaries, but they are not the same
routine: the IAM trust policies they request differ for every account id
(hardcoded example user versus account root). -/
theorem claim_C7 (s : String) (o : SetupOracle) (i : String) (c : StsCreds)
    (hs : s ≠ "")
    (hdesc : o.describeOrg = .found i)
    (hrole : o.createRole = none)
    (hassume : o.assumeRole = .ok c) :
    (CredentialAndRole.setup_org_and_get_creds (.pstr s) o).1 =
      (FlaskEndpoint.setup_org_and_get_creds (.pstr s) o).1 ∧
    (∀ a : String, cliTrustPolicy.principal ≠ (flaskTrustPolicy a).principal) := by
  constructor
  · unfold CredentialAndRole.setup_org_and_get_creds FlaskEndpoint.setup_org_and_get_creds
    have hv : ¬ (truthy (.pstr s) = false ∨ (PyVal.pstr s).isStr = false) := by
      simp [truthy, PyVal.isStr, hs]
    rw [if_neg hv, if_neg hv]
    simp [hdesc, hrole, hassume]
  · exact fun a => trust_principal_ne a

/-- Claim C7 witness: concrete equal results on the all-success oracle. -/
theorem claim_C7_witness :
    (CredentialAndRole.setup_org_and_get_creds (.pstr "OrgAdminRole") oAll).1 =
      (FlaskEndpoint.setup_org_and_get_creds (.pstr "OrgAdminRole") oAll).1 :=
  (claim_C7 "OrgAdminRole" oAll "o-example111"
    { accessKeyId := "ASIAEXAMPLEKEY", secretAccessKey := "examplesecret",
      sessionToken := "exampletoken", expiration := "2026-10-12T01:00:00Z" }
    (by decide) rfl rfl rfl).1

/-- A polled status that is neither SUCCEEDED nor FAILED. -/
def isNonTerminal (s : AcctStatus) : Prop :=
  s.state ≠ "SUCCEEDED" ∧ s.state ≠ "FAILED"

/-- Trace of a polling run that sees k non-terminal statuses and then a
terminal one: k+1 status calls interleaved with k six-second sleeps. -/
def pollTraceN (create_id : String) : Nat → List ApiCall
  | 0 => [.describeCreateAccountStatus create_id]
  | k + 1 =>
    .describeCreateAccountStatus create_id :: .sleepSeconds 6 :: pollTraceN create_id k

lemma poll_succeeds (cid : String) :
    ∀ (k : Nat) (statuses : Nat → AcctStatus) (a : String),
      (∀ j, j < k → isNonTerminal (statuses j)) →
      (statuses k).state = "SUCCEEDED" →
      (statuses k).accountId = some a →
      ∀ fuel, k < fuel →
        CreateAccount.pollCreateStatus cid statuses fuel =
          (some (.ok a), pollTraceN cid k) := by
  intro k
  induction k with
  | zero =>
    intro statuses a _ hs ha fuel hf
    obtain ⟨m, rfl⟩ : ∃ m, fuel = m + 1 := ⟨fuel - 1, by omega⟩
    unfold CreateAccount.pollCreateStatus
    simp [hs, ha, pollTraceN]
  | succ k ih =>
    intro statuses a h hs ha fuel hf
    obtain ⟨m, rfl⟩ : ∃ m, fuel = m + 1 := ⟨fuel - 1, by omega⟩
    have h0 := h 0 (by omega)
    have ih2 := ih (fun n => statuses (n + 1)) a (fun j hj => h (j + 1) (by omega)) hs ha m (by omega)
    unfold CreateAccount.pollCreateStatus
    simp [h0.1, h0.2, ih2, pollTraceN]

lemma poll_fails (cid : String) :
    ∀ (k : Nat) (statuses : Nat → AcctStatus) (r : String),
      (∀ j, j < k → isNonTerminal (statuses j)) →
      (statuses k).state = "FAILED" →
      (statuses k).failureReason = some r →
      ∀ fuel, k < fuel →
        CreateAccount.pollCreateStatus cid statuses fuel =
          (some (.error (.runtimeError ("Account creation failed: " ++ r))), pollTraceN cid k) := by
  intro k
  induction k with
  | zero =>
    intro statuses r _ hs hr fuel hf
    obtain ⟨m, rfl⟩ : ∃ m, fuel = m + 1 := ⟨fuel - 1, by omega⟩
    have hne : (statuses 0).state ≠ "SUCCEEDED" := by rw [hs]; decide
    unfold CreateAccount.pollCreateStatus
    simp [hne, hs, hr, pollTraceN]
  | succ k ih =>
    intro statuses r h hs hr fuel hf
    obtain ⟨m, rfl⟩ : ∃ m, fuel = m + 1 := ⟨fuel - 1, by omega⟩
    have h0 := h 0 (by omega)
    have ih2 := ih (fun n => statuses (n + 1)) r (fun j hj => h (j + 1) (by omega)) hs hr m (by omega)
    unfold CreateAccount.pollCreateStatus
    simp [h0.1, h0.2, ih2, pollTraceN]

lemma poll_forever (cid : String) :
    ∀ (fuel : Nat) (statuses : Nat → AcctStatus),
      (∀ j, isNonTerminal (statuses j)) →
      (CreateAccount.pollCreateStatus cid statuses fuel).1 = none := by
  intro fuel
  induction fuel with
  | zero => intro statuses _; rfl
  | succ m ih =>
    intro statuses h
    have h0 := h 0
    have h2 := ih (fun n => statuses (n + 1)) (fun j => h (j + 1))
    unfold CreateAccount.pollCreateStatus
    rcases hp : CreateAccount.pollCreateStatus cid (fun n => statuses (n + 1)) m with ⟨res, t⟩
    rw [hp] at h2
    simp [h0.1, h0.2, hp]
    simpa using h2

/-- Claim C4: the account-creation polling loop, on a status sequence whose
first k responses are non-terminal: if the next response is SUCCEEDED it
returns the provider-supplied account id after exactly k+1 status calls (the
same result and trace for every sufficient fuel bound, so polling stops); if
the next response is FAILED it raises a RuntimeError embedding the
provider-supplied failure reason; and on a sequence with no terminal state
the loop is still running after any number of iterations, i.e. it polls
forever, sleeping 6 seconds between consecutive status calls. -/
theorem claim_C4 (create_id : String) (statuses : Nat → AcctStatus) (k : Nat)
    (hk : ∀ j, j < k → isNonTerminal (statuses j)) :
    (∀ a, (statuses k).state = "SUCCEEDED" → (statuses k).accountId = some a →
      ∀ fuel, k < fuel →
        CreateAccount.pollCreateStatus create_id statuses fuel =
          (some (.ok a), pollTraceN create_id k)) ∧
    (∀ r, (statuses k).state = "FAILED" → (statuses k).failureReason = some r →
      ∀ fuel, k < fuel →
        CreateAccount.pollCreateStatus create_id statuses fuel =
          (some (.error (.runtimeError ("Account creation failed: " ++ r))),
           pollTraceN create_id k)) ∧
    ((∀ j, isNonTerminal (statuses j)) →
      ∀ fuel, (CreateAccount.pollCreateStatus create_id statuses fuel).1 = none) :=
  ⟨fun a hs ha fuel hf => poll_succeeds create_id k statuses a hk hs ha fuel hf,
   fun r hs hr fuel hf => poll_fails create_id k statuses r hk hs hr fuel hf,
   fun hall fuel => poll_forever create_id fuel statuses hall⟩

/-- Claim C4 witness: one IN_PROGRESS response followed by SUCCEEDED returns
the account id after exactly two status calls with one sleep between them. -/
theorem claim_C4_witness :
    CreateAccount.pollCreateStatus "car-examplereq1"
      (fun n => if n = 0 then { state := "IN_PROGRESS", accountId := none, failureReason := none }
                else { state := "SUCCEEDED", accountId := some "444455556666", failureReason := none })
      5 =
    (some (.ok "444455556666"),
     [.describeCreateAccountStatus "car-examplereq1", .sleepSeconds 6,
      .describeCreateAccountStatus "car-examplereq1"]) :=
  (claim_C4 "car-examplereq1"
    (fun n => if n = 0 then { state := "IN_PROGRESS", accountId := none, failureReason := none }
              else { state := "SUCCEEDED", accountId := some "444455556666", failureReason := none })
    1 (fun j hj => by interval_cases j <;> exact ⟨by decide, by decide⟩)).1
    "444455556666" (by decide) (by decide) 5 (by omega)

/-- Calls that look up OUs under a parent (the paginator pass and the page
fetches of list_organizational_units_for_parent). -/
def isOuLookup : ApiCall → Bool
  | .paginateListOUs _ => true
  | .listOUsForParent _ => true
  | _ => false

/-- The paginator pass over list_organizational_units_for_parent. -/
def isPaginatePass : ApiCall → Bool
  | .paginateListOUs _ => true
  | _ => false

lemma isPaginatePass_of_not_lookup (c : ApiCall) (h : isOuLookup c = false) :
    isPaginatePass c = false := by
  cases c <;> simp_all [isOuLookup, isPaginatePass]

lemma setup_no_lookup (rv : PyVal) (o : SetupOracle) :
    ∀ c ∈ (CredentialAndRole.setup_org_and_get_creds rv o).2, isOuLookup c = false := by
  intro c hc
  rcases o with ⟨acct, dorg, corg, crole, arole⟩
  rcases dorg with i | _ | ⟨code, msg⟩ <;>
    rcases corg with ⟨c4, m4⟩ | i2 <;>
    rcases crole with _ | ⟨c2, m2⟩ <;>
    rcases arole with ⟨c3, m3⟩ | cr <;>
    (simp only [CredentialAndRole.setup_org_and_get_creds] at hc
     repeat' split at hc
     all_goals try split_ifs at *
     all_goals simp_all [isOuLookup]
     all_goals (cases c <;> simp_all))

lemma poll_no_lookup (cid : String) :
    ∀ (fuel : Nat) (st : Nat → AcctStatus) (c : ApiCall),
      c ∈ (CreateAccount.pollCreateStatus cid st fuel).2 → isOuLookup c = false := by
  intro fuel
  induction fuel with
  | zero => intro st c hc; simp [CreateAccount.pollCreateStatus] at hc
  | succ m ih =>
    intro st c hc
    simp only [CreateAccount.pollCreateStatus] at hc
    by_cases h1 : (st 0).state = "SUCCEEDED"
    · rcases ha : (st 0).accountId with _ | a <;> simp [h1, ha] at hc <;> simp [hc, isOuLookup]
    · by_cases h2 : (st 0).state = "FAILED"
      · simp [h1, h2] at hc
        simp [hc, isOuLookup]
      · rcases hp : CreateAccount.pollCreateStatus cid (fun n => st (n + 1)) m with ⟨res, t⟩
        simp [h1, h2, hp] at hc
        rcases hc with rfl | rfl | hmem
        · rfl
        · rfl
        · exact ih (fun n => st (n + 1)) c (by rw [hp]; exact hmem)

lemma pollMove_no_lookup (an ae tid cid : String) (creds : CredResult) (fuel : Nat)
    (o : AcctOracle) :
    ∀ c ∈ (CreateAccount.pollMoveStep an ae tid cid creds fuel o).2, isOuLookup c = false := by
  intro c hc
  rcases hp : CreateAccount.pollCreateStatus cid o.statuses fuel with ⟨res, t3⟩
  have hpoll : ∀ x ∈ t3, isOuLookup x = false :=
    fun x hx => poll_no_lookup cid fuel o.statuses x (by rw [hp]; exact hx)
  simp only [CreateAccount.pollMoveStep, hp] at hc
  rcases res with _ | res2
  · exact hpoll c hc
  · rcases res2 with e | aid
    · exact hpoll c hc
    · rcases hr : o.roots with ⟨rc, rm⟩ | rlist
      · simp [hr] at hc
        rcases hc with hmem | rfl
        · exact hpoll c hmem
        · rfl
      · rcases rlist with _ | ⟨rid, rrest⟩ <;> simp [hr] at hc
        · rcases hc with hmem | rfl
          · exact hpoll c hmem
          · rfl
        · rcases hm : o.moveAccount with _ | ⟨mc, mm⟩ <;> simp [hm] at hc <;>
            (rcases hc with hmem | rfl | rfl
             · exact hpoll c hmem
             · rfl
             · rfl)

lemma creationPhase_no_lookup (an ae rn tid : String) (creds : CredResult) (fuel : Nat)
    (o : AcctOracle) :
    ∀ c ∈ (CreateAccount.creationPhase an ae rn tid creds fuel o).2, isOuLookup c = false := by
  intro c hc
  simp only [CreateAccount.creationPhase] at hc
  rcases hs : CreateAccount.startCreateStep o with e | cid
  · simp [hs] at hc
    simp [hc, isOuLookup]
  · rcases hpm : CreateAccount.pollMoveStep an ae tid cid creds fuel o with ⟨res, t⟩
    simp [hs, hpm] at hc
    rcases hc with rfl | hmem
    · rfl
    · exact pollMove_no_lookup an ae tid cid creds fuel o c (by rw [hpm]; exact hmem)

lemma scan_calls (r nm : String) :
    ∀ (pages : List (List OUEntry)) (c : ApiCall),
      c ∈ (CreateAccount.scanOuPages r nm pages).2 → c = .listOUsForParent r := by
  intro pages
  induction pages with
  | nil => intro c hc; simp [CreateAccount.scanOuPages] at hc
  | cons page rest ih =>
    intro c hc
    simp only [CreateAccount.scanOuPages] at hc
    rcases hf : page.find? (fun x => x.name = nm) with _ | entry
    · rcases hs : CreateAccount.scanOuPages r nm rest with ⟨res, t⟩
      simp [hf, hs] at hc
      rcases hc with rfl | hmem
      · rfl
      · exact ih c (by rw [hs]; exact hmem)
    · simp [hf] at hc
      simp [hc]

lemma resolve_ou_id_trace (o : AcctOracle) (ou r : String) (rs : List String)
    (hou : ou ≠ "") (hroots : o.roots = .ok (r :: rs)) :
    CreateAccount.resolve_ou_id o (some ou) none =
      ((CreateAccount.scanOuPages r ou o.ouPages).1,
       .listRoots :: .paginateListOUs r :: (CreateAccount.scanOuPages r ou o.ouPages).2) := by
  rcases hs : CreateAccount.scanOuPages r ou o.ouPages with ⟨res, t⟩
  simp [CreateAccount.resolve_ou_id, truthyOpt, hou, hroots, hs]

/-- Claim C5: in create_member_account (once validation and provisioning
pass and the root listing is available), an ou argument matching the
ID-shape heuristic is used directly as the OU id and the whole run issues no
OU-lookup call at all; an ou argument not matching the heuristic triggers
exactly one paginator pass over list_organizational_units_for_parent, and
every OU-lookup call of the run targets the root as parent. -/
theorem claim_C5 (n e ou rn : String) (fuel : Nat) (o : AcctOracle)
    (creds : CredResult) (t0 : List ApiCall) (r : String) (rs : List String)
    (hn : n ≠ "") (he : e ≠ "") (hou : ou ≠ "")
    (hsetup : CredentialAndRole.setup_org_and_get_creds (.pstr rn) o.setup = (.ok creds, t0))
    (hroots : o.roots = .ok (r :: rs)) :
    (CreateAccount.ouIdHeuristic ou = true →
      CreateAccount.resolveOuStep ou o = (.ok ou, []) ∧
      (CreateAccount.create_member_account n e ou rn fuel o).2.countP isOuLookup = 0) ∧
    (CreateAccount.ouIdHeuristic ou = false →
      (CreateAccount.create_member_account n e ou rn fuel o).2.countP isPaginatePass = 1 ∧
      ∀ c ∈ (CreateAccount.create_member_account n e ou rn fuel o).2,
        isOuLookup c = true → c = .paginateListOUs r ∨ c = .listOUsForParent r) := by
  have hvalid : ¬(n = "" ∨ e = "" ∨ ou = "") := by simp [hn, he, hou]
  have ht0 : ∀ c ∈ t0, isOuLookup c = false := by
    intro c h
    apply setup_no_lookup (.pstr rn) o.setup
    rw [hsetup]
    exact h
  have ht0z : t0.countP isOuLookup = 0 :=
    List.countP_eq_zero.mpr (by intro a ha; simp [ht0 a ha])
  have ht0p : t0.countP isPaginatePass = 0 :=
    List.countP_eq_zero.mpr (by intro a ha; simp [isPaginatePass_of_not_lookup a (ht0 a ha)])
  constructor
  · intro hh
    have hstep : CreateAccount.resolveOuStep ou o = (.ok ou, []) := by
      unfold CreateAccount.resolveOuStep CreateAccount.resolveTargetOu
      rw [if_pos hh]
    refine ⟨hstep, ?_⟩
    rcases hph : CreateAccount.creationPhase n e rn ou creds fuel o with ⟨res, t2⟩
    have hph2 : ∀ c ∈ t2, isOuLookup c = false := fun c h =>
      creationPhase_no_lookup n e rn ou creds fuel o c (by rw [hph]; exact h)
    have hmain : CreateAccount.create_member_account n e ou rn fuel o = (res, t0 ++ [] ++ t2) := by
      unfold CreateAccount.create_member_account
      rw [if_neg hvalid]
      simp only [hsetup, hstep, hph]
    have ht2z : t2.countP isOuLookup = 0 :=
      List.countP_eq_zero.mpr (by intro a ha; simp [hph2 a ha])
    rw [hmain]
    simp [List.countP_append, ht0z, ht2z]
  · intro hh
    rcases hs : CreateAccount.scanOuPages r ou o.ouPages with ⟨sres, st⟩
    have hst : ∀ c ∈ st, c = ApiCall.listOUsForParent r := fun c h =>
      scan_calls r ou o.ouPages c (by rw [hs]; exact h)
    have hres : CreateAccount.resolve_ou_id o (some ou) none =
        (sres, .listRoots :: .paginateListOUs r :: st) := by
      rw [resolve_ou_id_trace o ou r rs hou hroots, hs]
    have htar : CreateAccount.resolveTargetOu ou o =
        (sres, .listRoots :: .paginateListOUs r :: st) := by
      unfold CreateAccount.resolveTargetOu
      rw [if_neg (by simp [hh]), hres]
    have hstp : st.countP isPaginatePass = 0 :=
      List.countP_eq_zero.mpr (by intro a ha; rw [hst a ha]; simp [isPaginatePass])
    rcases sres with serr | sid
    · have hstep : CreateAccount.resolveOuStep ou o =
          (.error (.valueError ("Cannot resolve OU \x27" ++ ou ++ "\x27: " ++ errStr serr)),
           .listRoots :: .paginateListOUs r :: st) := by
        unfold CreateAccount.resolveOuStep
        rw [htar]
      have hmain : CreateAccount.create_member_account n e ou rn fuel o =
          (some (.error (.valueError ("Cannot resolve OU \x27" ++ ou ++ "\x27: " ++ errStr serr))),
           t0 ++ (.listRoots :: .paginateListOUs r :: st)) := by
        unfold CreateAccount.create_member_account
        rw [if_neg hvalid]
        simp only [hsetup, hstep]
      rw [hmain]
      constructor
      · simp [List.countP_append, List.countP_cons, ht0p, hstp, isPaginatePass]
      · intro c hc hl
        simp only [List.mem_append, List.mem_cons] at hc
        rcases hc with h | h | h | h
        · exact absurd hl (by simp [ht0 c h])
        · subst h; simp [isOuLookup] at hl
        · exact Or.inl h
        · exact Or.inr (hst c h)
    · have hstep : CreateAccount.resolveOuStep ou o =
          (.ok sid, .listRoots :: .paginateListOUs r :: st) := by
        unfold CreateAccount.resolveOuStep
        rw [htar]
      rcases hph : CreateAccount.creationPhase n e rn sid creds fuel o with ⟨res, t2⟩
      have hph2 : ∀ c ∈ t2, isOuLookup c = false := fun c h =>
        creationPhase_no_lookup n e rn sid creds fuel o c (by rw [hph]; exact h)
      have hph2p : t2.countP isPaginatePass = 0 :=
        List.countP_eq_zero.mpr (by intro a ha; simp [isPaginatePass_of_not_lookup a (hph2 a ha)])
      have hmain : CreateAccount.create_member_account n e ou rn fuel o =
          (res, t0 ++ (.listRoots :: .paginateListOUs r :: st) ++ t2) := by
        unfold CreateAccount.create_member_account
        rw [if_neg hvalid]
        simp only [hsetup, hstep, hph]
      rw [hmain]
      constructor
      · simp [List.countP_append, List.countP_cons, ht0p, hstp, hph2p, isPaginatePass]
      · intro c hc hl
        simp only [List.mem_append, List.mem_cons] at hc
        rcases hc with (h | h | h | h) | h
        · exact absurd hl (by simp [ht0 c h])
        · subst h; simp [isOuLookup] at hl
        · exact Or.inl h
        · exact Or.inr (hst c h)
        · exact absurd hl (by simp [hph2 c h])

/-- Claim C5 witness: resolving the OU name Development issues exactly one
paginator pass. -/
theorem claim_C5_witness :
    (CreateAccount.create_member_account "NewAcct" "new@example.com" "Development"
        "OrgAdminRole" 3 oAcct).2.countP isPaginatePass = 1 :=
  ((claim_C5 "NewAcct" "new@example.com" "Development" "OrgAdminRole" 3 oAcct cred0
      setupTrace0 "r-root1" [] (by decide) (by decide) (by decide) rfl rfl).2 (by decide)).1
